import Mathlib

/-!
Shallow embedding of `src/skyvern/app.py`: an in-memory task lifecycle
engine behind a FastAPI surface.  The global dict `tasks` is modelled as
an association list; each HTTP handler and the background completion
thread body become Lean functions on that store.  Times (`time.time()`)
are modelled as `Nat` values passed in explicitly.
-/

namespace Skyvern

/-- The four task states the source writes into `tasks[id]["status"]`
(as the strings "pending", "processing", "completed", "failed"). -/
inductive Status where
  | pending
  | processing
  | completed
  | failed
deriving DecidableEq, Repr

/-- The `Task` pydantic model (the submission payload). `navigation_payload`
is an arbitrary JSON mapping in the source; its contents never influence
control flow, so it is modelled as an association list of strings. -/
structure TaskSpec where
  url : Option String
  navigation_goal : String
  navigation_payload : Option (List (String × String))
  max_steps : Int
  proxy_location : Option String
deriving DecidableEq, Repr

/-- The fabricated result dict written by `delayed_completion`. -/
structure TaskResult where
  steps_taken : Nat
  completion_time : Nat
  screenshots : List String
deriving DecidableEq, Repr

/-- One value of the global `tasks` dict.  The source stores
`task, status, created_at, updated_at` always, `api_version` only for the
v1/v2 handlers (modelled as `Option`), and `result` only once completed;
`error` is read with `.get("error")` and never written, modelled as an
`Option` that starts out `none`. -/
structure TaskRecord where
  task : TaskSpec
  status : Status
  created_at : Nat
  updated_at : Nat
  api_version : Option String
  error : Option String
  result : Option TaskResult
deriving DecidableEq, Repr

/-- The `TaskStatus` response model of `GET .../tasks/{task_id}`. -/
structure TaskStatusView where
  status : Status
  error : Option String
  result : Option TaskResult
deriving DecidableEq, Repr

/-- The global dict `tasks = {}`, modelled as an association list with at
most one entry per key (every reachable store has unique keys because
`Store.set` replaces in place). -/
def Store := List (String × TaskRecord)
deriving DecidableEq, Repr

/-- `task_id in tasks` / `tasks[task_id]` read access. -/
def Store.lookup : Store → String → Option TaskRecord
  | [], _ => none
  | (k, v) :: t, id => if k = id then some v else Store.lookup t id

/-- `tasks[task_id] = record`: Python dict assignment replaces the entry
if the key is present, otherwise adds it. -/
def Store.set : Store → String → TaskRecord → Store
  | [], id, r => [(id, r)]
  | (k, v) :: t, id, r => if k = id then (id, r) :: t else (k, v) :: Store.set t id r

/-- In-place field mutation `tasks[task_id][field] = ...` on an existing
entry; a missing key is left untouched (the source would raise `KeyError`
there, but every call site reaches only keys present in the dict, since
nothing is ever deleted from `tasks`). -/
def Store.modify : Store → String → (TaskRecord → TaskRecord) → Store
  | [], _, _ => []
  | (k, v) :: t, id, f => if k = id then (id, f v) :: t else (k, v) :: Store.modify t id f

theorem Store.lookup_set_self (s : Store) (id : String) (r : TaskRecord) :
    (s.set id r).lookup id = some r := by
  induction s with
  | nil => simp [Store.set, Store.lookup]
  | cons h t ih =>
    obtain ⟨k, v⟩ := h
    by_cases hk : k = id <;> simp [Store.set, Store.lookup, hk, ih]

theorem Store.lookup_set_other (s : Store) (id id' : String) (r : TaskRecord)
    (h : id' ≠ id) : (s.set id r).lookup id' = s.lookup id' := by
  induction s with
  | nil => simp [Store.set, Store.lookup, Ne.symm h]
  | cons hd t ih =>
    obtain ⟨k, v⟩ := hd
    by_cases hk : k = id
    · subst hk
      simp [Store.set, Store.lookup, Ne.symm h]
    · simp [Store.set, Store.lookup, hk, ih]

theorem Store.lookup_modify_self (s : Store) (id : String) (f : TaskRecord → TaskRecord) :
    (s.modify id f).lookup id = (s.lookup id).map f := by
  induction s with
  | nil => simp [Store.modify, Store.lookup]
  | cons hd t ih =>
    obtain ⟨k, v⟩ := hd
    by_cases hk : k = id <;> simp [Store.modify, Store.lookup, hk, ih]

theorem Store.lookup_modify_other (s : Store) (id id' : String) (f : TaskRecord → TaskRecord)
    (h : id' ≠ id) : (s.modify id f).lookup id' = s.lookup id' := by
  induction s with
  | nil => simp [Store.modify, Store.lookup]
  | cons hd t ih =>
    obtain ⟨k, v⟩ := hd
    by_cases hk : k = id
    · subst hk
      simp [Store.modify, Store.lookup, Ne.symm h]
    · simp [Store.modify, Store.lookup, hk, ih]

/-! ## Authentication (`verify_api_key`, `verify_bearer_token`, `authenticate`)

`API_KEY` and `BEARER_TOKEN` come from the environment; an unset variable
is the empty string (`os.environ.get(..., "")`), which is falsy in
Python.  The header values are `Optional[str]` (absent header = `None`).
A result of `false` from `authenticate` stands for the HTTP 403
"Invalid API key or Bearer token" response, raised before any task
operation runs. -/

/-- `verify_api_key`: with no API key configured, returns True
(authentication disabled); otherwise True exactly when the `x-api-key`
header equals the configured key (`None != API_KEY` for a missing
header). -/
def verify_api_key (apiKey : String) (xApiKey : Option String) : Bool :=
  if apiKey = "" then
    true
  else if xApiKey ≠ some apiKey then
    false
  else
    true

/-- `verify_bearer_token`: with no token configured, returns True;
otherwise the `authorization` header must be present, start with
"Bearer ", and after `str.replace("Bearer ", "")` (which removes every
occurrence, like Python) equal the configured token.  A present-but-empty
header is falsy in Python, and also fails `startswith`. -/
def verify_bearer_token (bearerToken : String) (authorization : Option String) : Bool :=
  if bearerToken = "" then
    true
  else
    match authorization with
    | none => false
    | some auth =>
      if ¬ auth.startsWith "Bearer " then
        false
      else if auth.replace "Bearer " "" ≠ bearerToken then
        false
      else
        true

/-- `authenticate`: grants access iff either scheme's check returned True;
otherwise raises HTTP 403. -/
def authenticate (apiKey bearerToken : String)
    (xApiKey authorization : Option String) : Bool :=
  verify_api_key apiKey xApiKey || verify_bearer_token bearerToken authorization

/-! ## Identifier generation

The source draws `uuid.uuid4()`; the drawn value is an input `u` here.
v1 and the bare alias use `str(uuid.uuid4())` unchanged; v2 uses
`f"t_{str(uuid.uuid4())[:8]}"`. -/

/-- Identifier format of `create_task_v1` / `create_task` (bare alias):
the full uuid string. -/
def genIdV1 (u : String) : String := u

/-- Identifier format of `create_task_v2`: literal prefix `t_` plus the
first 8 characters of the uuid string. -/
def genIdV2 (u : String) : String := "t_" ++ u.take 8

/-! ## Task creation and processing

Each POST handler stores a fresh record with status "pending" and then
calls `process_task` synchronously; `process_task` flips the status to
"processing" and spawns the daemon thread whose body is
`delayed_completion`.  The handler body contains no `await`, so on the
asyncio event loop it runs atomically with respect to every other
request handler; `createTaskCore` therefore models the whole handler
body as one step.  The `time.time()` calls of one handler are collapsed
into a single instant `t`. -/

/-- The dict literal stored by the three POST handlers:
status "pending", both timestamps now, `api_version` present only for
the v1/v2 handlers ("v1"/"v2"), no result, and no "error" key. -/
def initRecord (ns : Option String) (spec : TaskSpec) (t : Nat) : TaskRecord :=
  { task := spec
    status := Status.pending
    created_at := t
    updated_at := t
    api_version := ns
    error := none
    result := none }

/-- The synchronous part of `process_task`: set the status of the
(just-stored) record to "processing" and refresh `updated_at`. -/
def processTaskSync (id : String) (t : Nat) (s : Store) : Store :=
  s.modify id (fun r => { r with status := Status.processing, updated_at := t })

/-- Body of the three POST handlers (`create_task_v1`, `create_task_v2`,
`create_task`), parametrised by the namespace tag `ns` and the already
formatted identifier: store the pending record (a plain dict assignment,
overwriting any present entry), run `process_task`'s synchronous part,
and return the task id. -/
def createTaskCore (ns : Option String) (id : String) (spec : TaskSpec) (t : Nat)
    (s : Store) : Store × String :=
  let s1 := s.set id (initRecord ns spec t)
  let s2 := processTaskSync id t s1
  (s2, id)

/-- `create_task_v1` (POST /api/v1/tasks): full uuid id, api_version "v1". -/
def create_task_v1 (u : String) (spec : TaskSpec) (t : Nat) (s : Store) : Store × String :=
  createTaskCore (some "v1") (genIdV1 u) spec t s

/-- `create_task_v2` (POST /api/v2/tasks): short prefixed id, api_version "v2". -/
def create_task_v2 (u : String) (spec : TaskSpec) (t : Nat) (s : Store) : Store × String :=
  createTaskCore (some "v2") (genIdV2 u) spec t s

/-- `create_task` (POST /tasks): full uuid id, no api_version key. -/
def create_task (u : String) (spec : TaskSpec) (t : Nat) (s : Store) : Store × String :=
  createTaskCore none (genIdV1 u) spec t s

/-- Body of `delayed_completion` after the `time.sleep(10)` has elapsed:
set status "completed", refresh `updated_at`, and store the fabricated
result (5 steps, elapsed time since the record's `created_at`, empty
screenshot list), as three successive field assignments.  The id is
always present when the thread runs (nothing deletes from `tasks`); on a
missing id this model leaves the store unchanged where the source would
raise `KeyError`. -/
def delayed_completion (id : String) (t : Nat) (s : Store) : Store :=
  match s.lookup id with
  | none => s
  | some r =>
    let s1 := s.modify id (fun r0 => { r0 with status := Status.completed })
    let s2 := s1.modify id (fun r0 => { r0 with updated_at := t })
    s2.modify id (fun r0 =>
      { r0 with result := some { steps_taken := 5
                                 completion_time := t - r.created_at
                                 screenshots := [] } })

/-- The full daemon-thread body: first the work (`time.sleep(10)` in the
source, standing in for real automation work), then the three completion
assignments.  The source wraps nothing in `try/except`, so when the work
step raises (`workErr = some msg`) the exception propagates out of the
thread body before any store mutation: the returned store is unchanged
and the second component carries the escaped exception message. -/
def delayed_completion_run (workErr : Option String) (id : String) (t : Nat)
    (s : Store) : Store × Option String :=
  match workErr with
  | some msg => (s, some msg)
  | none => (delayed_completion id t s, none)

/-! ## Status queries -/

/-- `get_task_status_v1` (GET /api/v1/tasks/{task_id}): `none` models the
HTTP 404 "Task not found"; otherwise the `TaskStatus` response built from
`status`, `.get("error")` and `.get("result")`. -/
def get_task_status_v1 (s : Store) (id : String) : Option TaskStatusView :=
  match s.lookup id with
  | none => none
  | some r => some { status := r.status, error := r.error, result := r.result }

/-- `get_task_status_v2` (GET /api/v2/tasks/{task_id}): same body as the
v1 handler, repeated verbatim in the source. -/
def get_task_status_v2 (s : Store) (id : String) : Option TaskStatusView :=
  match s.lookup id with
  | none => none
  | some r => some { status := r.status, error := r.error, result := r.result }

/-- `get_task_status` (GET /tasks/{task_id}): same body again. -/
def get_task_status (s : Store) (id : String) : Option TaskStatusView :=
  match s.lookup id with
  | none => none
  | some r => some { status := r.status, error := r.error, result := r.result }

/-! ## Trace semantics

The store mutates through exactly two kinds of atomic steps: a POST
handler body (`createTaskCore`, atomic because it contains no `await`)
and a completion-thread body firing (`delayed_completion`; under the GIL
its three dict assignments touch only its own id, and no claim below
distinguishes the intermediate points, so it is taken as one step).
Status queries never mutate, so they need no event. -/

/-- One atomic mutation of the global `tasks` dict. -/
inductive Event where
  | create (ns : Option String) (id : String) (spec : TaskSpec) (t : Nat)
  | complete (id : String) (t : Nat)
deriving DecidableEq, Repr

/-- Apply one event to the store. -/
def applyEvent (s : Store) : Event → Store
  | Event.create ns id spec t => (createTaskCore ns id spec t s).1
  | Event.complete id t => delayed_completion id t s

/-- Run a list of events from a given store. -/
def runFrom (s : Store) (es : List Event) : Store :=
  es.foldl applyEvent s

/-- Run a list of events from the initial empty dict `tasks = {}`. -/
def run (es : List Event) : Store :=
  runFrom [] es

/-- Well-formed traces: each `create` uses an identifier not already in
the store (what the uuid generator statistically guarantees) and each
`complete` fires for an identifier that exists (the thread is spawned by
that id's own create, and nothing deletes from `tasks`). -/
def wfFrom (s : Store) : List Event → Bool
  | [] => true
  | e :: es =>
    (match e with
     | Event.create _ id _ _ => (s.lookup id).isNone
     | Event.complete id _ => (s.lookup id).isSome)
    && wfFrom (applyEvent s e) es

/-- A whole trace from the empty store is well formed. -/
def wf (es : List Event) : Bool := wfFrom [] es

/-! ## The reachable-store invariant

After any sequence of events every stored record (a) has status
"processing" or "completed" (the "pending" written by a POST handler is
overwritten to "processing" before the handler returns, and nothing ever
writes "failed"), (b) has no "error" key (nothing in the source writes
one), and (c) carries a result only once "completed". -/

/-- The invariant of a single record. -/
def recordInv (r : TaskRecord) : Prop :=
  (r.status = Status.processing ∨ r.status = Status.completed) ∧
  r.error = none ∧
  (r.result.isSome = true → r.status = Status.completed)

/-- The invariant of a store: every stored record satisfies `recordInv`. -/
def storeInv (s : Store) : Prop :=
  ∀ id r, s.lookup id = some r → recordInv r

theorem storeInv_nil : storeInv [] := by
  intro id r h
  simp [Store.lookup] at h

theorem lookup_createTaskCore_self (ns : Option String) (id : String) (spec : TaskSpec)
    (t : Nat) (s : Store) :
    ((createTaskCore ns id spec t s).1).lookup id =
      some { task := spec, status := Status.processing, created_at := t, updated_at := t,
             api_version := ns, error := none, result := none } := by
  simp [createTaskCore, processTaskSync, Store.lookup_modify_self, Store.lookup_set_self,
    initRecord]

theorem lookup_createTaskCore_other (ns : Option String) (id id' : String) (spec : TaskSpec)
    (t : Nat) (s : Store) (h : id' ≠ id) :
    ((createTaskCore ns id spec t s).1).lookup id' = s.lookup id' := by
  simp [createTaskCore, processTaskSync, Store.lookup_modify_other _ _ _ _ h,
    Store.lookup_set_other _ _ _ _ h]

theorem lookup_delayed_completion_self (id : String) (t : Nat) (s : Store) (r : TaskRecord)
    (h : s.lookup id = some r) :
    (delayed_completion id t s).lookup id =
      some { r with status := Status.completed, updated_at := t,
                    result := some { steps_taken := 5, completion_time := t - r.created_at,
                                     screenshots := [] } } := by
  simp [delayed_completion, h, Store.lookup_modify_self]

theorem lookup_delayed_completion_none (id : String) (t : Nat) (s : Store)
    (h : s.lookup id = none) :
    delayed_completion id t s = s := by
  simp [delayed_completion, h]

theorem lookup_delayed_completion_other (id id' : String) (t : Nat) (s : Store)
    (h : id' ≠ id) :
    (delayed_completion id t s).lookup id' = s.lookup id' := by
  unfold delayed_completion
  cases s.lookup id with
  | none => rfl
  | some r => simp [Store.lookup_modify_other _ _ _ _ h]

theorem storeInv_applyEvent (s : Store) (e : Event) (hs : storeInv s) :
    storeInv (applyEvent s e) := by
  cases e with
  | create ns id spec t =>
    intro id' r' h'
    by_cases hid : id' = id
    · subst hid
      rw [show applyEvent s (Event.create ns id' spec t) = (createTaskCore ns id' spec t s).1
            from rfl, lookup_createTaskCore_self] at h'
      cases h'
      constructor
      · exact Or.inl rfl
      · exact ⟨rfl, by intro h; simp at h⟩
    · rw [show applyEvent s (Event.create ns id spec t) = (createTaskCore ns id spec t s).1
            from rfl, lookup_createTaskCore_other _ _ _ _ _ _ hid] at h'
      exact hs id' r' h'
  | complete id t =>
    intro id' r' h'
    rw [show applyEvent s (Event.complete id t) = delayed_completion id t s from rfl] at h'
    by_cases hid : id' = id
    · subst hid
      cases hlook : s.lookup id' with
      | none => rw [lookup_delayed_completion_none _ _ _ hlook, hlook] at h'; cases h'
      | some r0 =>
        rw [lookup_delayed_completion_self _ _ _ _ hlook] at h'
        cases h'
        exact ⟨Or.inr rfl, (hs id' r0 hlook).2.1, fun _ => rfl⟩
    · rw [lookup_delayed_completion_other _ _ _ _ hid] at h'
      exact hs id' r' h'

theorem storeInv_runFrom (s : Store) (es : List Event) (hs : storeInv s) :
    storeInv (runFrom s es) := by
  induction es generalizing s with
  | nil => exact hs
  | cons e es ih => exact ih (applyEvent s e) (storeInv_applyEvent s e hs)

theorem storeInv_run (es : List Event) : storeInv (run es) :=
  storeInv_runFrom [] es storeInv_nil

/-! ## The state machine over traces -/

/-- The status stored under an id, `none` when the id is absent. -/
def statusAt (s : Store) (id : String) : Option Status :=
  (s.lookup id).map (fun r => r.status)

/-- The edges of the specified state machine: stay put, or
pending → processing, or processing → {completed, failed}. -/
def stepOK : Status → Status → Bool
  | s, s' =>
    (s = s') ||
    (s = Status.pending && s' = Status.processing) ||
    (s = Status.processing && (s' = Status.completed || s' = Status.failed))

/-- One observable step of a single id's status: stay absent, appear
(already at "processing": the POST handler overwrites its own "pending"
before returning), or move along an edge of `stepOK`; ids never
disappear. -/
def optStepOK : Option Status → Option Status → Bool
  | none, none => true
  | none, some s' => s' = Status.processing
  | some _, none => false
  | some s, some s' => stepOK s s'

theorem optStepOK_refl (o : Option Status) : optStepOK o o = true := by
  cases o with
  | none => rfl
  | some s => simp [optStepOK, stepOK]

theorem wfFrom_append (s : Store) (es es' : List Event) :
    wfFrom s (es ++ es') = (wfFrom s es && wfFrom (runFrom s es) es') := by
  induction es generalizing s with
  | nil => simp [wfFrom, runFrom]
  | cons e es ih =>
    simp only [List.cons_append, wfFrom, List.append_eq]
    rw [ih (applyEvent s e)]
    simp [runFrom, Bool.and_assoc]

theorem runFrom_append (s : Store) (es es' : List Event) :
    runFrom s (es ++ es') = runFrom (runFrom s es) es' := by
  simp [runFrom, List.foldl_append]

/-- The per-id, per-step property of any well-formed trace: the status
under each id either stays as it is, appears at "processing", or moves
processing → completed; every such move is an edge of `stepOK`. -/
theorem statusAt_step (es : List Event) (e : Event) (id : String)
    (h : wf (es ++ [e]) = true) :
    optStepOK (statusAt (run es) id) (statusAt (run (es ++ [e])) id) = true := by
  have happ := wfFrom_append [] es [e]
  rw [wf, happ] at h
  simp only [Bool.and_eq_true] at h
  obtain ⟨-, hstep⟩ := h
  have hrun : run (es ++ [e]) = applyEvent (run es) e := by
    rw [run, runFrom_append]; rfl
  rw [hrun]
  simp only [wfFrom, Bool.and_eq_true] at hstep
  obtain ⟨hpre, -⟩ := hstep
  have hinv := storeInv_run es
  cases e with
  | create ns cid spec t =>
    simp only [Option.isNone_iff_eq_none] at hpre
    by_cases hid : id = cid
    · subst hid
      have hpre' : (run es).lookup id = none := hpre
      rw [show applyEvent (run es) (Event.create ns id spec t)
            = (createTaskCore ns id spec t (run es)).1 from rfl]
      rw [statusAt, statusAt, hpre', lookup_createTaskCore_self]
      rfl
    · rw [show applyEvent (run es) (Event.create ns cid spec t)
            = (createTaskCore ns cid spec t (run es)).1 from rfl]
      rw [statusAt, statusAt, lookup_createTaskCore_other _ _ _ _ _ _ hid]
      exact optStepOK_refl _
  | complete cid t =>
    rw [show applyEvent (run es) (Event.complete cid t)
          = delayed_completion cid t (run es) from rfl]
    by_cases hid : id = cid
    · subst hid
      rw [Option.isSome_iff_exists] at hpre
      obtain ⟨r, hr⟩ := hpre
      have hr' : (run es).lookup id = some r := hr
      rw [statusAt, statusAt, hr', lookup_delayed_completion_self _ _ _ _ hr']
      have := (hinv id r hr).1
      cases this with
      | inl hp => simp [hp, optStepOK, stepOK]
      | inr hc => simp [hc, optStepOK, stepOK]
    · rw [statusAt, statusAt, lookup_delayed_completion_other _ _ _ _ hid]
      exact optStepOK_refl _

/-! ## Concrete sample inputs used by witnesses and counterexamples -/

/-- The spec of the end-to-end scenario: `{goal: "buy a widget", max_steps: 10}`. -/
def sampleSpec : TaskSpec :=
  { url := none
    navigation_goal := "buy a widget"
    navigation_payload := none
    max_steps := 10
    proxy_location := none }

/-- A first submission payload. -/
def specA : TaskSpec :=
  { url := none
    navigation_goal := "first"
    navigation_payload := none
    max_steps := 50
    proxy_location := none }

/-- A second, different submission payload. -/
def specB : TaskSpec :=
  { url := none
    navigation_goal := "second"
    navigation_payload := none
    max_steps := 50
    proxy_location := none }

/-- A store holding one record at id "u-1" in state "processing", as left
behind by a v1 submission at time 0. -/
def procStore : Store := (create_task_v1 "u-1" sampleSpec 0 []).1

/-! ## Authentication lemmas -/

theorem verify_api_key_eq_false_iff (a : String) (k : Option String) :
    verify_api_key a k = false ↔ a ≠ "" ∧ k ≠ some a := by
  unfold verify_api_key
  by_cases ha : a = "" <;> by_cases hk : k = some a <;> simp [ha, hk]

theorem verify_bearer_token_eq_false_iff (b : String) (auth : Option String) :
    verify_bearer_token b auth = false ↔
      b ≠ "" ∧ ∀ s, auth = some s →
        ¬(s.startsWith "Bearer " = true ∧ s.replace "Bearer " "" = b) := by
  unfold verify_bearer_token
  by_cases hb : b = ""
  · simp [hb]
  · cases auth with
    | none => simp [hb]
    | some s =>
      by_cases hs : s.startsWith "Bearer " = true
      · by_cases hr : s.replace "Bearer " "" = b <;> simp [hb, hs, hr]
      · simp [hb, hs]

/-- C1: the claim says that with exactly one scheme configured (here the
shared-secret header) a non-matching request is rejected; in the source,
the unconfigured bearer scheme returns True ("authentication disabled"),
the OR in `authenticate` sees `False or True`, and the request is
granted. -/
theorem C1_counterexample :
    ("secret" : String) ≠ "" ∧ ("" : String) = "" ∧
    verify_api_key "secret" (some "wrong") = false ∧
    authenticate "secret" "" (some "wrong") none = true := by
  refine ⟨by decide, rfl, rfl, rfl⟩

/-- C1 (amended): a request is rejected with 403 exactly when BOTH
schemes are configured and NEITHER matches; equivalently access is
granted as soon as at least one scheme is unconfigured or matches.  In
particular, with exactly one scheme configured every request is granted,
whatever its headers. -/
theorem C1_auth_rejects_iff (a b : String) (k auth : Option String) :
    authenticate a b k auth = false ↔
      a ≠ "" ∧ b ≠ "" ∧ k ≠ some a ∧
      ∀ s, auth = some s →
        ¬(s.startsWith "Bearer " = true ∧ s.replace "Bearer " "" = b) := by
  rw [authenticate, Bool.or_eq_false_iff, verify_api_key_eq_false_iff,
    verify_bearer_token_eq_false_iff]
  tauto

/-- Witness for the amended C1 at a concrete rejected request: both
schemes configured, neither header matches. -/
theorem C1_auth_rejects_iff_witness :
    authenticate "secret" "tok" (some "nope") none = false :=
  (C1_auth_rejects_iff "secret" "tok" (some "nope") none).mpr
    ⟨by decide, by decide, by decide, fun s hs => by cases hs⟩

/-- C2: the claim says an id just returned by submission queries as
"pending" before the work duration elapses; in the source the handler
calls `process_task` synchronously, which flips the record to
"processing" before the handler returns, so the first status any query
can observe is "processing" (it is never `NotFound`, as claimed). -/
theorem C2_counterexample :
    get_task_status ((create_task_v1 "u-1" sampleSpec 0 []).1)
        ((create_task_v1 "u-1" sampleSpec 0 []).2) =
      some { status := Status.processing, error := none, result := none } ∧
    Status.processing ≠ Status.pending := by
  refine ⟨rfl, by decide⟩

/-- C2 (amended): immediately after any POST handler returns and before
the simulated work duration has elapsed, querying the returned id never
yields `NotFound` and reports status "processing" (the handler advances
the record from "pending" to "processing" synchronously before
returning). -/
theorem C2_immediate_query (ns : Option String) (id : String) (spec : TaskSpec)
    (t : Nat) (s : Store) :
    get_task_status ((createTaskCore ns id spec t s).1) ((createTaskCore ns id spec t s).2) =
      some { status := Status.processing, error := none, result := none } := by
  simp [get_task_status, createTaskCore, processTaskSync, Store.lookup_modify_self,
    Store.lookup_set_self, initRecord]

/-- C3: the claim says an error raised during the background work is
caught and converted into the "failed" state with a descriptive message;
in the source `delayed_completion` wraps nothing in `try/except`, so the
exception escapes the thread body, the record stays "processing" forever
and no error message is ever recorded. -/
theorem C3_counterexample :
    (delayed_completion_run (some "boom") "u-1" 10 procStore).1 = procStore ∧
    (delayed_completion_run (some "boom") "u-1" 10 procStore).2 = some "boom" ∧
    statusAt (delayed_completion_run (some "boom") "u-1" 10 procStore).1 "u-1" =
      some Status.processing ∧
    statusAt (delayed_completion_run (some "boom") "u-1" 10 procStore).1 "u-1" ≠
      some Status.failed ∧
    ((delayed_completion_run (some "boom") "u-1" 10 procStore).1.lookup "u-1").map
        (fun r => r.error) = some none := by
  refine ⟨rfl, rfl, rfl, by decide, rfl⟩

/-- C3 (amended): an error raised while performing the background work is
NOT caught: it propagates out of the thread body before any store
mutation, so the record keeps its "processing" state with no error
recorded and the "failed" state is never entered.  (The thread is a
daemon thread, so the escaped exception kills only that thread, not the
serving process.) -/
theorem C3_uncaught_work_error (msg id : String) (t : Nat) (s : Store) (r : TaskRecord)
    (h : s.lookup id = some r) (hp : r.status = Status.processing) :
    (delayed_completion_run (some msg) id t s).1 = s ∧
    (delayed_completion_run (some msg) id t s).2 = some msg ∧
    statusAt (delayed_completion_run (some msg) id t s).1 id = some Status.processing ∧
    ((delayed_completion_run (some msg) id t s).1.lookup id).map (fun r0 => r0.error) =
      some r.error := by
  refine ⟨rfl, rfl, ?_, ?_⟩
  · simp [delayed_completion_run, statusAt, h, hp]
  · simp [delayed_completion_run, h]

/-- Witness for the amended C3 at a concrete store and work error. -/
theorem C3_uncaught_work_error_witness :
    (delayed_completion_run (some "oops") "u-1" 42 procStore).1 = procStore ∧
    (delayed_completion_run (some "oops") "u-1" 42 procStore).2 = some "oops" ∧
    statusAt (delayed_completion_run (some "oops") "u-1" 42 procStore).1 "u-1" =
      some Status.processing ∧
    ((delayed_completion_run (some "oops") "u-1" 42 procStore).1.lookup "u-1").map
        (fun r0 => r0.error) = some none :=
  C3_uncaught_work_error "oops" "u-1" 42 procStore
    { task := sampleSpec, status := Status.processing, created_at := 0, updated_at := 0,
      api_version := some "v1", error := none, result := none }
    (by decide) rfl

theorem stepOK_from_completed (s' : Status) (h : stepOK Status.completed s' = true) :
    s' = Status.completed := by
  cases s' <;> first | rfl | simp [stepOK] at h

theorem stepOK_from_failed (s' : Status) (h : stepOK Status.failed s' = true) :
    s' = Status.failed := by
  cases s' <;> first | rfl | simp [stepOK] at h

/-- C4: the claim includes that the sequence of states observed by
repeated polling is a prefix of `pending, processing, {completed|failed}`
(so its first element would be "pending"); on a well-formed trace the
first status a query can ever observe for a submitted id is "processing",
because the POST handler overwrites its own "pending" synchronously
before returning, so no observed sequence starts with "pending". -/
theorem C4_counterexample :
    wf [Event.create (some "v1") "u-1" sampleSpec 0] = true ∧
    statusAt (run [Event.create (some "v1") "u-1" sampleSpec 0]) "u-1" =
      some Status.processing ∧
    some Status.processing ≠ some Status.pending := by
  refine ⟨rfl, rfl, by decide⟩

/-- C4 (amended): along any well-formed trace, each id's status either
stays unchanged, appears — already at "processing", since the submission
handler advances its freshly stored "pending" record synchronously — or
moves along a forward edge of `pending → processing → {completed|failed}`
(in fact only `processing → completed` ever fires); no other edge ever
occurs, ids never disappear, and once a record is terminal
("completed" or "failed") no step ever changes its status again. -/
theorem C4_state_machine (es : List Event) (e : Event) (id : String)
    (h : wf (es ++ [e]) = true) :
    optStepOK (statusAt (run es) id) (statusAt (run (es ++ [e])) id) = true ∧
    (statusAt (run es) id = some Status.completed →
      statusAt (run (es ++ [e])) id = some Status.completed) ∧
    (statusAt (run es) id = some Status.failed →
      statusAt (run (es ++ [e])) id = some Status.failed) := by
  have hstep := statusAt_step es e id h
  refine ⟨hstep, ?_, ?_⟩
  · intro hc
    rw [hc] at hstep
    cases hafter : statusAt (run (es ++ [e])) id with
    | none => rw [hafter] at hstep; cases hstep
    | some s' =>
      rw [hafter] at hstep
      rw [stepOK_from_completed s' hstep]
  · intro hf
    rw [hf] at hstep
    cases hafter : statusAt (run (es ++ [e])) id with
    | none => rw [hafter] at hstep; cases hstep
    | some s' =>
      rw [hafter] at hstep
      rw [stepOK_from_failed s' hstep]

/-- Witness for the amended C4: a well-formed two-event trace (submit,
then the completion thread fires) and the step from its first to its
second store. -/
theorem C4_state_machine_witness :
    wf ([Event.create (some "v1") "a" sampleSpec 0] ++ [Event.complete "a" 10]) = true ∧
    (optStepOK (statusAt (run [Event.create (some "v1") "a" sampleSpec 0]) "a")
        (statusAt (run ([Event.create (some "v1") "a" sampleSpec 0] ++
          [Event.complete "a" 10])) "a") = true ∧
      (statusAt (run [Event.create (some "v1") "a" sampleSpec 0]) "a" =
          some Status.completed →
        statusAt (run ([Event.create (some "v1") "a" sampleSpec 0] ++
          [Event.complete "a" 10])) "a" = some Status.completed) ∧
      (statusAt (run [Event.create (some "v1") "a" sampleSpec 0]) "a" =
          some Status.failed →
        statusAt (run ([Event.create (some "v1") "a" sampleSpec 0] ++
          [Event.complete "a" 10])) "a" = some Status.failed)) :=
  ⟨by decide,
   C4_state_machine [Event.create (some "v1") "a" sampleSpec 0]
     (Event.complete "a" 10) "a" (by decide)⟩

/-- C5: in every status-query response on every reachable store, a
result is present only in state "completed", an error only in state
"failed" (vacuously: the source never writes an error), and neither is
present in "pending" or "processing".  Queries never mutate the store,
so the property is stable under any interleaving of concurrent
pollers. -/
theorem C5_result_error_exclusive (es : List Event) (id : String) (v : TaskStatusView)
    (h : get_task_status (run es) id = some v) :
    (v.result.isSome = true → v.status = Status.completed) ∧
    (v.error.isSome = true → v.status = Status.failed) ∧
    ((v.status = Status.pending ∨ v.status = Status.processing) →
      v.result = none ∧ v.error = none) := by
  have hinv := storeInv_run es
  unfold get_task_status at h
  cases hl : (run es).lookup id with
  | none => rw [hl] at h; cases h
  | some r =>
    rw [hl] at h
    cases h
    obtain ⟨hst, herr, hres⟩ := hinv id r hl
    refine ⟨hres, ?_, ?_⟩
    · intro hesome
      rw [herr] at hesome
      cases hesome
    · intro hpp
      dsimp only at hpp
      refine ⟨?_, herr⟩
      cases hr : r.result with
      | none => rfl
      | some x =>
        have hcomp : r.status = Status.completed := hres (by rw [hr]; rfl)
        rcases hpp with hp | hp <;> rw [hp] at hcomp <;> exact Status.noConfusion hcomp

/-- Witness for C5 on the store left by one concrete submission. -/
theorem C5_result_error_exclusive_witness :
    get_task_status (run [Event.create (some "v1") "a" sampleSpec 0]) "a" =
      some { status := Status.processing, error := none, result := none } ∧
    (({ status := Status.processing, error := none,
        result := none } : TaskStatusView).result.isSome = true →
      Status.processing = Status.completed) :=
  ⟨rfl,
   (C5_result_error_exclusive [Event.create (some "v1") "a" sampleSpec 0] "a"
     { status := Status.processing, error := none, result := none } rfl).1⟩

/-- C6: the claim says inserting under an identifier already present
fails with a `DuplicateId` error and the first record is never replaced;
in the source the POST handlers run the unconditional dict assignment
`tasks[task_id] = {...}`, so a second submission drawing the same id
succeeds and silently replaces the first record (here: the stored
payload and creation time become those of the second submission). -/
theorem C6_counterexample :
    (((createTaskCore (some "v1") "x" specB 5
          ((createTaskCore (some "v1") "x" specA 0 []).1)).1).lookup "x").map
        (fun r => r.task) = some specB ∧
    (((createTaskCore (some "v1") "x" specB 5
          ((createTaskCore (some "v1") "x" specA 0 []).1)).1).lookup "x").map
        (fun r => r.created_at) = some 5 ∧
    specA ≠ specB := by
  refine ⟨rfl, rfl, by decide⟩

/-- C6 (amended): storing a task under an identifier that is already
present raises no error and silently overwrites: after the second
submission the record under the id is entirely the second submission's
(payload, timestamps, namespace tag), whatever was stored before. -/
theorem C6_silent_overwrite (ns ns' : Option String) (id : String)
    (spec spec' : TaskSpec) (t t' : Nat) (s : Store) :
    ((createTaskCore ns' id spec' t'
        ((createTaskCore ns id spec t s).1)).1).lookup id =
      some { task := spec', status := Status.processing, created_at := t', updated_at := t',
             api_version := ns', error := none, result := none } :=
  lookup_createTaskCore_self ns' id spec' t' ((createTaskCore ns id spec t s).1)

/-- C7: the claim says no two submissions ever return the same
identifier, including the v2 short form; the v2 handler truncates the
generated uuid to its first 8 characters, so two submissions whose
distinct uuids agree on those 8 characters return the identical id
`t_aaaaaaaa` — the source performs no collision check. -/
theorem C7_counterexample :
    ("aaaaaaaa-1111" : String) ≠ "aaaaaaaa-2222" ∧
    (create_task_v2 "aaaaaaaa-1111" sampleSpec 0 []).2 = "t_aaaaaaaa" ∧
    (create_task_v2 "aaaaaaaa-2222" sampleSpec 1
        ((create_task_v2 "aaaaaaaa-1111" sampleSpec 0 []).1)).2 = "t_aaaaaaaa" := by
  refine ⟨by decide, rfl, rfl⟩

/-- C7 (amended): returned identifiers are distinct exactly as far as the
generated uuid values are: v1/bare submissions return distinct ids
whenever their uuids differ, and v2 submissions return distinct ids
whenever the first 8 characters of their uuids differ; no collision
detection exists beyond that. -/
theorem C7_id_uniqueness (u u' : String) (spec spec' : TaskSpec) (t t' : Nat)
    (s s' : Store) :
    (u ≠ u' → (create_task_v1 u spec t s).2 ≠ (create_task_v1 u' spec' t' s').2) ∧
    (u.take 8 ≠ u'.take 8 →
      (create_task_v2 u spec t s).2 ≠ (create_task_v2 u' spec' t' s').2) := by
  constructor
  · intro h hc
    exact h hc
  · intro h hc
    apply h
    have hdata : ("t_" ++ u.take 8).data = ("t_" ++ u'.take 8).data := congrArg String.data hc
    rw [String.data_append, String.data_append] at hdata
    exact String.ext (List.append_cancel_left hdata)

/-- Witness for the amended C7 at concrete distinct uuids. -/
theorem C7_id_uniqueness_witness :
    (create_task_v1 "u-1" sampleSpec 0 []).2 ≠ (create_task_v1 "u-2" sampleSpec 0 []).2 ∧
    (create_task_v2 "aaaaaaaa-1" sampleSpec 0 []).2 ≠
      (create_task_v2 "bbbbbbbb-1" sampleSpec 0 []).2 :=
  ⟨(C7_id_uniqueness "u-1" "u-2" sampleSpec sampleSpec 0 0 [] []).1 (by decide),
   (C7_id_uniqueness "aaaaaaaa-1" "bbbbbbbb-1" sampleSpec sampleSpec 0 0 [] []).2 (by decide)⟩

/-- C8: the three path aliases operate on the one shared `tasks` dict:
the three GET handlers are the very same function of the shared store
(their bodies are repeated verbatim in the source), so a task submitted
under any namespace is queryable under every other alias with the
identical status view; and the namespace passed to submission changes
only the identifier format and the recorded `api_version` tag, which the
status view does not expose, so the view of a freshly created task is
independent of the namespace. -/
theorem C8_shared_engine (s : Store) (id : String) (ns ns' : Option String)
    (spec : TaskSpec) (t : Nat) :
    (get_task_status_v1 s id = get_task_status s id ∧
     get_task_status_v2 s id = get_task_status s id) ∧
    get_task_status ((createTaskCore ns id spec t s).1) id =
      get_task_status ((createTaskCore ns' id spec t s).1) id ∧
    get_task_status_v1 ((createTaskCore ns id spec t s).1) id =
      some { status := Status.processing, error := none, result := none } ∧
    get_task_status_v2 ((createTaskCore ns id spec t s).1) id =
      some { status := Status.processing, error := none, result := none } := by
  refine ⟨⟨rfl, rfl⟩, ?_, ?_, ?_⟩ <;>
    simp [get_task_status, get_task_status_v1, get_task_status_v2,
      lookup_createTaskCore_self]

/-- C9: nothing in the source ever writes status "failed" or an "error"
value: on every reachable store each record's status differs from
"failed" with the error field absent, and every status-query response
carries `error = None`; every task that settles settles to
"completed". -/
theorem C9_failed_unreachable (es : List Event) (id : String) :
    (∀ r, (run es).lookup id = some r →
      r.status ≠ Status.failed ∧ r.error = none) ∧
    (∀ v, get_task_status (run es) id = some v →
      v.error = none ∧ v.status ≠ Status.failed) := by
  have hinv := storeInv_run es
  constructor
  · intro r hr
    obtain ⟨hst, herr, -⟩ := hinv id r hr
    refine ⟨?_, herr⟩
    rcases hst with h | h <;> rw [h] <;> exact fun hc => Status.noConfusion hc
  · intro v hv
    unfold get_task_status at hv
    cases hl : (run es).lookup id with
    | none => rw [hl] at hv; cases hv
    | some r =>
      rw [hl] at hv
      cases hv
      obtain ⟨hst, herr, -⟩ := hinv id r hl
      refine ⟨herr, ?_⟩
      rcases hst with h | h <;> dsimp only <;> rw [h] <;>
        exact fun hc => Status.noConfusion hc

/-- Witness for C9 on the store left by one concrete submission. -/
theorem C9_failed_unreachable_witness :
    ({ task := sampleSpec, status := Status.processing, created_at := 3, updated_at := 3,
       api_version := some "v2", error := none, result := none } : TaskRecord).status ≠
        Status.failed ∧
    ({ task := sampleSpec, status := Status.processing, created_at := 3, updated_at := 3,
       api_version := some "v2", error := none, result := none } : TaskRecord).error = none :=
  (C9_failed_unreachable [Event.create (some "v2") "b" sampleSpec 3] "b").1
    { task := sampleSpec, status := Status.processing, created_at := 3, updated_at := 3,
      api_version := some "v2", error := none, result := none } (by decide)

/-- C10: whenever the completion thread fires for a stored record, the
populated result has the fixed fabricated shape: exactly 5 steps taken,
the empty screenshot list, and `completion_time` equal to the elapsed
time since the record's `created_at` — independent of the submitted
payload (the formula mentions nothing of `r.task`, in particular not its
`max_steps`). -/
theorem C10_fabricated_result (id : String) (t : Nat) (s : Store) (r : TaskRecord)
    (h : s.lookup id = some r) :
    ((delayed_completion id t s).lookup id).map (fun r0 => r0.result) =
      some (some { steps_taken := 5, completion_time := t - r.created_at,
                   screenshots := [] }) ∧
    ((delayed_completion id t s).lookup id).map (fun r0 => r0.status) =
      some Status.completed := by
  rw [lookup_delayed_completion_self id t s r h]
  exact ⟨rfl, rfl⟩

/-- Witness for C10: submission at time 2, completion firing at time 12,
yielding a completion time of 10. -/
theorem C10_fabricated_result_witness :
    ((delayed_completion "w-1" 12 ((create_task_v1 "w-1" sampleSpec 2 []).1)).lookup
        "w-1").map (fun r0 => r0.result) =
      some (some { steps_taken := 5, completion_time := 12 - 2, screenshots := [] }) ∧
    ((delayed_completion "w-1" 12 ((create_task_v1 "w-1" sampleSpec 2 []).1)).lookup
        "w-1").map (fun r0 => r0.status) = some Status.completed :=
  C10_fabricated_result "w-1" 12 ((create_task_v1 "w-1" sampleSpec 2 []).1)
    { task := sampleSpec, status := Status.processing, created_at := 2, updated_at := 2,
      api_version := some "v1", error := none, result := none } (by decide)

end Skyvern
